import Mathlib

/-!
Verification of the safe-reference layer in `src/blinker/_saferef.py`.

The Python module is shallowly embedded: object identities are natural
numbers (the values returned by `id`), the interning registry
`BoundMethodWeakref._all_instances` is an association list from keys to
wrapper identities, and garbage collection is an explicit `killObject`
event that fires the weakref callbacks wired in `__init__`.  CPython
hashing of non-negative ints and of 2-tuples is embedded exactly
(reduction modulo the Mersenne prime 2^61 - 1, and the xxHash-style
tuple combiner from pyhash), since `get_instance_key` is defined as
`hash((id(target.__self__), id(target.__func__)))`.
-/

namespace SafeRef

/-- A Python value passed as the `on_delete` argument: we track only the
facets the source consults, namely truthiness (`if on_delete:`) and
callability (`callable(on_delete)`), plus a label `cid` identifying the
value so invocations can be logged. -/
structure Cb where
  cid : Nat
  truthy : Bool
  callable : Bool
deriving DecidableEq

/-- `on_delete` is either the Python `None` default or a supplied value. -/
abbrev OnDelete := Option Cb

/-- Python truthiness of an `on_delete` value (`None` is falsy). -/
def pyTruthy : OnDelete → Bool
  | none => false
  | some c => c.truthy

/-- Python callability of an `on_delete` value (`None` is not callable). -/
def pyCallable : OnDelete → Bool
  | none => false
  | some c => c.callable

/-- Label of an `on_delete` value, for the invocation log. -/
def cbCid : OnDelete → Nat
  | none => 0
  | some c => c.cid

/-- CPython reduces int hashes modulo the Mersenne prime 2^61 - 1. -/
def pyHashModulus : Nat := 2 ^ 61 - 1

/-- CPython `hash` of a non-negative int: the value modulo 2^61 - 1. -/
def pyIntHash (n : Nat) : Nat := n % pyHashModulus

/-- 64-bit wraparound modulus for the tuple hash. -/
def u64 : Nat := 2 ^ 64

def xxPrime1 : Nat := 11400714785074694791

def xxPrime2 : Nat := 14029467366897019727

def xxPrime5 : Nat := 2870177450012600261

/-- Rotate a 64-bit value left by 31 bits. -/
def xxRotate (x : Nat) : Nat := x * 2 ^ 31 % u64 + x / 2 ^ 33

/-- One lane-combining step of the CPython tuple hash. -/
def tupleHashStep (acc lane : Nat) : Nat :=
  xxRotate ((acc + lane * xxPrime2) % u64) * xxPrime1 % u64

/-- CPython hash of a 2-tuple whose components hash to `h1` and `h2`
(the xxHash-based `tuplehash` from `Python/pyhash.c` for length 2,
including the final length mix and the reserved -1 remap). -/
def pyTupleHash2 (h1 h2 : Nat) : Nat :=
  let acc := tupleHashStep (tupleHashStep xxPrime5 h1) h2
  let acc2 := (acc + Nat.xor 2 (Nat.xor xxPrime5 3527539)) % u64
  if acc2 = u64 - 1 then 1546275796 else acc2

/-- `BoundMethodWeakref.get_instance_key(target)`:
`hash((id(target.__self__), id(target.__func__)))`, taking the two
identities directly. -/
def get_instance_key (selfId funcId : Nat) : Nat :=
  pyTupleHash2 (pyIntHash selfId) (pyIntHash funcId)

/-- One `BoundMethodWeakref` object.  `wid` is the Lean-side object
identity of the wrapper itself; `deletionMethods` is `none` when the
attribute has been removed by `del self.deletion_methods` (or not yet
set by `__init__`), and otherwise holds the Python list, whose elements
are the raw `on_delete` arguments (possibly `None`). -/
structure Wrapper where
  wid : Nat
  key : Nat
  deletionMethods : Option (List OnDelete)
  weakSelfRef : Nat
  weakFuncRef : Nat
  selfLabel : String
  funcLabel : String
deriving DecidableEq

/-- Global state of the module: all wrapper objects still held somewhere,
the interning registry `_all_instances` (key to wrapper identity), the set
of live referent objects, a fresh-identity counter, and a log of cleanup
callback invocations, each entry recording (callback label, wrapper
identity it was passed). -/
structure SRState where
  wrappers : List Wrapper
  registry : List (Nat × Nat)
  liveObjects : List Nat
  nextWid : Nat
  callbackLog : List (Nat × Nat)
deriving DecidableEq

/-- Dictionary lookup in the registry association list. -/
def regLookup (r : List (Nat × Nat)) (k : Nat) : Option Nat :=
  (r.find? (fun p => p.1 == k)).map (fun p => p.2)

/-- Dictionary deletion: drop every entry with key `k`. -/
def regErase (r : List (Nat × Nat)) (k : Nat) : List (Nat × Nat) :=
  r.filter (fun p => p.1 != k)

/-- Dictionary assignment: `r[k] = v`. -/
def regInsert (r : List (Nat × Nat)) (k v : Nat) : List (Nat × Nat) :=
  (k, v) :: regErase r k

/-- Fetch the wrapper object with identity `wid`. -/
def findWrapper (st : SRState) (wid : Nat) : Option Wrapper :=
  st.wrappers.find? (fun w => w.wid == wid)

/-- Mutate the wrapper object with identity `wid` in place. -/
def updateWrapper (st : SRState) (wid : Nat) (g : Wrapper → Wrapper) : SRState :=
  { st with wrappers := st.wrappers.map (fun w => if w.wid == wid then g w else w) }

/-- A weak reference resolves exactly while its referent is live. -/
def isLive (st : SRState) (objId : Nat) : Bool := st.liveObjects.contains objId

/-- The exceptions the embedded code can raise.  The first two are the
`TypeError`s raised by `safe_ref` (the spec calls them `MalformedTarget`
and `InvalidCallback`); `keyError` is raised by
`del _all_instances[self.key]` on a missing key; `nameError` is the
Python 3 failure of the name lookup for the removed builtin `cmp`;
`notCallable` is the `TypeError` from invoking a non-callable cleanup
entry. -/
inductive PyErr where
  | boundButNotMethod
  | onDeleteNotCallable
  | keyError
  | attributeError
  | nameError
  | notCallable
deriving DecidableEq

/-- `BoundMethodWeakref.__new__`: compute the instance key; if it is in
`_all_instances`, append `on_delete` to the existing wrapper's
`deletion_methods` list (the source appends unconditionally, even when
`on_delete` is `None`) and return that wrapper; otherwise allocate a
fresh, not yet initialised object, register it under the key, and return
it. -/
def bmwNew (st : SRState) (selfId funcId : Nat) (onDel : OnDelete) : Nat × SRState :=
  let instanceKey := get_instance_key selfId funcId
  match regLookup st.registry instanceKey with
  | some wid =>
    (wid, updateWrapper st wid (fun w =>
      { w with deletionMethods := w.deletionMethods.map (fun l => l ++ [onDel]) }))
  | none =>
    let wid := st.nextWid
    let fresh : Wrapper :=
      { wid := wid, key := 0, deletionMethods := none, weakSelfRef := 0,
        weakFuncRef := 0, selfLabel := "", funcLabel := "" }
    (wid, { st with
      wrappers := st.wrappers ++ [fresh],
      registry := regInsert st.registry instanceKey wid,
      nextWid := wid + 1 })

/-- `BoundMethodWeakref.__init__`: set `deletion_methods` to
`[on_delete] if on_delete else []`, set `key`, wire two fresh weak
references to `target.__self__` and `target.__func__` (each with
`self._remove` as collection callback; any weak references created by an
earlier `__init__` run on the same object are discarded unfired), and
capture the display strings. -/
def bmwInit (st : SRState) (wid : Nat) (selfId funcId : Nat) (sLabel fLabel : String)
    (onDel : OnDelete) : SRState :=
  updateWrapper st wid (fun w =>
    { w with
      deletionMethods := some (if pyTruthy onDel then [onDel] else []),
      key := get_instance_key selfId funcId,
      weakSelfRef := selfId,
      weakFuncRef := funcId,
      selfLabel := sLabel,
      funcLabel := fLabel })

/-- `BoundMethodWeakref(target, on_delete)`: `type.__call__` invokes
`__new__` and then, because the returned object is an instance of the
class, always invokes `__init__` on it with the same arguments — also
when `__new__` returned an already interned wrapper. -/
def bmwConstruct (st : SRState) (selfId funcId : Nat) (sLabel fLabel : String)
    (onDel : OnDelete) : Nat × SRState :=
  let r := bmwNew st selfId funcId onDel
  (r.1, bmwInit r.2 r.1 selfId funcId sLabel fLabel onDel)

/-- A `safe_ref` target: its own identity, the `__self__` and `__func__`
attributes when present (as identities), and display strings. -/
structure Target where
  objId : Nat
  selfId : Option Nat
  funcId : Option Nat
  selfLabel : String
  funcLabel : String
deriving DecidableEq

/-- The handle returned by `safe_ref`: either a `BoundMethodWeakref`
(identified by its `wid`) or a plain `weakref.ref`, recording the
referent and the collection callback it was wired with, if any. -/
inductive Handle where
  | bmw (wid : Nat)
  | weakref (objId : Nat) (onDel : OnDelete)
deriving DecidableEq

/-- `safe_ref(target, on_delete)`: if the target has `__self__` but no
`__func__`, raise `TypeError` (the spec's `MalformedTarget`); if it has
both, construct a `BoundMethodWeakref` with no check on `on_delete`; for
a plain target, a truthy `on_delete` must be callable (`TypeError`, the
spec's `InvalidCallback`, otherwise) and is wired into the plain weak
reference, while a falsy `on_delete` is ignored entirely. -/
def safe_ref (st : SRState) (t : Target) (onDel : OnDelete) :
    Except PyErr (Handle × SRState) :=
  match t.selfId with
  | some i =>
    match t.funcId with
    | none => .error .boundButNotMethod
    | some f =>
      let r := bmwConstruct st i f t.selfLabel t.funcLabel onDel
      .ok (.bmw r.1, r.2)
  | none =>
    if pyTruthy onDel then
      if pyCallable onDel then .ok (.weakref t.objId onDel, st)
      else .error .onDeleteNotCallable
    else .ok (.weakref t.objId none, st)

/-- Invoke the entries of `deletion_methods` in order, passing the
wrapper (identified by `wid`) as the sole argument; invoking a
non-callable entry (including `None`) raises `TypeError` and aborts the
loop.  Returns the first exception, if any, and the state reached. -/
def runCallbacks (wid : Nat) : SRState → List OnDelete → Option PyErr × SRState
  | st, [] => (none, st)
  | st, c :: rest =>
    if pyCallable c then
      runCallbacks wid { st with callbackLog := st.callbackLog ++ [(cbCid c, wid)] } rest
    else (some .notCallable, st)

/-- `BoundMethodWeakref._remove(weak)`: first
`del self.__class__._all_instances[self.key]` (raising `KeyError` when
the key is absent, with no state change), then invoke every entry of
`self.deletion_methods` passing `self`, then `del self.deletion_methods`.
Returns the exception raised, if any, together with the state as mutated
up to that point. -/
def removeHandler (st : SRState) (wid : Nat) : Option PyErr × SRState :=
  match findWrapper st wid with
  | none => (some .attributeError, st)
  | some w =>
    match regLookup st.registry w.key with
    | none => (some .keyError, st)
    | some _ =>
      let st1 := { st with registry := regErase st.registry w.key }
      match w.deletionMethods with
      | none => (some .attributeError, st1)
      | some cbs =>
        match runCallbacks wid st1 cbs with
        | (some e, st2) => (some e, st2)
        | (none, st2) =>
          (none, updateWrapper st2 wid (fun w2 => { w2 with deletionMethods := none }))

/-- Garbage collection of the object `objId`: it leaves the live set, and
every live weak reference wired to it — that is, every wrapper whose
current `weak_self` or `weak_func` refers to it — fires its `_remove`
callback.  The weakref machinery swallows exceptions escaping a callback
(printing them), so the resulting state is kept and iteration goes on. -/
def killObject (st : SRState) (objId : Nat) : SRState :=
  let st1 := { st with liveObjects := st.liveObjects.filter (fun o => o != objId) }
  st1.wrappers.foldl (fun acc w =>
    if w.weakSelfRef == objId || w.weakFuncRef == objId then (removeHandler acc w.wid).2
    else acc) st1

/-- What `wrapper()` returns: `absent` is Python `None`; `bound i f` is
the bound method rebuilt by `function.__get__(target)` with a live
target; `bare f` is the plain function object, which is what
`function.__get__(None)` evaluates to in CPython when the instance half
is gone. -/
inductive CallResult where
  | absent
  | bound (instId funcId : Nat)
  | bare (funcId : Nat)
deriving DecidableEq

/-- `BoundMethodWeakref.__call__`: resolve `weak_self` into `target` and
`weak_func` into `function`; if `function` is not `None` return
`function.__get__(target)` (which is the bare function when `target` is
`None`), otherwise fall through and return `None`. -/
def wrapperCall (st : SRState) (wid : Nat) : CallResult :=
  match findWrapper st wid with
  | none => .absent
  | some w =>
    let target := if isLive st w.weakSelfRef then some w.weakSelfRef else none
    if isLive st w.weakFuncRef then
      match target with
      | some i => .bound i w.weakFuncRef
      | none => .bare w.weakFuncRef
    else .absent

/-- The Python 3 builtin namespace has no `cmp`: the builtin was removed
in Python 3, so the name lookup inside `__cmp__` fails. -/
def py3BuiltinCmp : Option (Nat → Nat → Int) := none

/-- `BoundMethodWeakref.__cmp__(self, other)`: both branches of the body
call the builtin `cmp`; under Python 3 that name does not resolve, so any
invocation raises `NameError` before comparing anything.  Were `cmp`
available, the same-class branch would return `cmp(self.key, other.key)`. -/
def wrapperCmp (a b : Wrapper) : Option PyErr × Option Int :=
  match py3BuiltinCmp with
  | some c => (none, some (c a.key b.key))
  | none => (some .nameError, none)

/-- Python 3 equality on wrappers: `__cmp__` is never consulted by the
Python 3 comparison protocol, and the class defines no `__eq__`, so `==`
falls back to `object.__eq__`, which is object identity. -/
def wrapperPyEq (a b : Wrapper) : Bool := a.wid == b.wid

/-- Initial state for the concrete scenarios: no wrappers, empty
registry, an instance object with identity 1 and a function object with
identity 2 both alive. -/
def st0 : SRState := ⟨[], [], [1, 2], 0, []⟩

/-- A callable, truthy cleanup callback labelled 1. -/
def cbA : OnDelete := some ⟨1, true, true⟩

/-- A callable, truthy cleanup callback labelled 2. -/
def cbB : OnDelete := some ⟨2, true, true⟩

/-- A truthy but non-callable `on_delete` argument (for example the int
42 of the spec scenario D). -/
def badCb : OnDelete := some ⟨42, true, false⟩

/-- A falsy yet callable `on_delete` argument (an object with a falsy
truth value that is nonetheless invocable). -/
def falsyCallable : OnDelete := some ⟨9, false, true⟩

/-- State after one reference to the bound method (instance 1,
function 2) with no callback. -/
def stLive : SRState := (bmwConstruct st0 1 2 "x" "m" none).2

/-- The wrapper that lives in `stLive`. -/
def wLive : Wrapper := ⟨0, get_instance_key 1 2, some [], 1, 2, "x", "m"⟩

/-- State after one reference to the bound method (instance 1,
function 2) supplying callback `cbA`. -/
def stLiveCb : SRState := (bmwConstruct st0 1 2 "x" "m" cbA).2

/-- The wrapper that lives in `stLiveCb`. -/
def wLiveCb : Wrapper := ⟨0, get_instance_key 1 2, some [cbA], 1, 2, "x", "m"⟩

/-- State after a second reference to the same bound method, supplying
callback `cbB` while `cbA` is already recorded. -/
def stTwo : SRState := (bmwConstruct stLiveCb 1 2 "x" "m" cbB).2

/-- State exercising identity reuse: the wrapper for (1, 2) dies when
instance 1 is collected, a fresh instance is later allocated at the
reused identity 1 (function 2 stayed alive), and a new reference is
taken for the reborn pairing while the old wrapper is still held. -/
def stReuse : SRState :=
  (bmwConstruct { killObject stLive 1 with liveObjects := [1, 2] } 1 2 "x" "m" none).2

/-- The dead-but-still-held first wrapper in `stReuse`. -/
def wOld : Wrapper := ⟨0, get_instance_key 1 2, none, 1, 2, "x", "m"⟩

/-- The freshly interned second wrapper in `stReuse`; it carries the
same key as `wOld` but is a different object. -/
def wNew : Wrapper := ⟨1, get_instance_key 1 2, some [], 1, 2, "x", "m"⟩

/-! ### Helper lemmas about the registry and wrapper store -/

theorem regLookup_regInsert (r : List (Nat × Nat)) (k v : Nat) :
    regLookup (regInsert r k v) k = some v := by
  simp [regLookup, regInsert, List.find?]

theorem regLookup_regErase (r : List (Nat × Nat)) (k : Nat) :
    regLookup (regErase r k) k = none := by
  induction r with
  | nil => rfl
  | cons p r ih =>
    by_cases h : p.1 = k
    · simp only [regErase, List.filter_cons, h, bne_self_eq_false, Bool.false_eq_true,
        if_false]
      exact ih
    · simp [regErase, regLookup, List.filter_cons, List.find?_cons, h]

theorem find?_map_update (l : List Wrapper) (wid : Nat) (g : Wrapper → Wrapper)
    (hg : ∀ w, (g w).wid = w.wid) :
    (l.map (fun w => if w.wid == wid then g w else w)).find? (fun w => w.wid == wid)
      = (l.find? (fun w => w.wid == wid)).map g := by
  induction l with
  | nil => rfl
  | cons w l ih =>
    rw [List.map_cons]
    by_cases h : w.wid = wid
    · have hb : (w.wid == wid) = true := beq_iff_eq.mpr h
      have hgb : ((g w).wid == wid) = true := by rw [hg]; exact hb
      rw [if_pos hb, List.find?_cons_of_pos (p := fun x : Wrapper => x.wid == wid) _ hgb,
        List.find?_cons_of_pos (p := fun x : Wrapper => x.wid == wid) _ hb]
      rfl
    · have hb : ¬ ((w.wid == wid) = true) := by simp [h]
      rw [if_neg hb, List.find?_cons_of_neg (p := fun x : Wrapper => x.wid == wid) _ hb,
        List.find?_cons_of_neg (p := fun x : Wrapper => x.wid == wid) _ hb]
      exact ih

theorem findWrapper_updateWrapper (st : SRState) (wid : Nat) (g : Wrapper → Wrapper)
    (hg : ∀ w, (g w).wid = w.wid) :
    findWrapper (updateWrapper st wid g) wid = (findWrapper st wid).map g :=
  find?_map_update st.wrappers wid g hg

theorem runCallbacks_ok (wid : Nat) (cbs : List OnDelete)
    (h : ∀ c ∈ cbs, pyCallable c = true) (st : SRState) :
    runCallbacks wid st cbs
      = (none, { st with
          callbackLog := st.callbackLog ++ cbs.map (fun c => (cbCid c, wid)) }) := by
  induction cbs generalizing st with
  | nil => simp [runCallbacks]
  | cons c rest ih =>
    have hc : pyCallable c = true := h c (by simp)
    rw [runCallbacks, if_pos hc, ih (fun d hd => h d (by simp [hd]))]
    simp [List.append_assoc]

/-! ### Claim theorems -/

/-- C1: the claim states that a second construction for the same
(instance, function) pair appends the new callback and retains the
previously accumulated ones.  The code does not: `__new__` appends `cbB`
to the interned wrapper, but `type.__call__` then runs `__init__` on the
returned wrapper, which resets `deletion_methods` to `[cbB]`, losing
`cbA`.  This theorem evaluates the embedded code on two constructions,
the first supplying `cbA` and the second `cbB`: the final list holds only
`cbB`. -/
theorem second_construction_drops_first_callback :
    (findWrapper stTwo 0).map Wrapper.deletionMethods = some (some [cbB])
    ∧ (findWrapper stTwo 0).map Wrapper.deletionMethods ≠ some (some [cbA, cbB]) :=
  ⟨by rfl, by decide⟩

/-- C2 counterexample: for a bound-method target, `safe_ref` performs no
invocability check on `on_delete`.  With the truthy, non-callable value
`badCb` (the int 42 of spec scenario D) it returns a wrapper instead of
raising. -/
theorem bound_path_skips_callable_check :
    safe_ref st0 ⟨0, some 1, some 2, "x", "m"⟩ badCb
      = .ok (.bmw 0, (bmwConstruct st0 1 2 "x" "m" badCb).2) := rfl

/-- C2 as amended: only on the plain (non-bound-method) path does
`safe_ref` validate `on_delete`: a truthy, non-callable `on_delete`
raises `TypeError` (the spec's `InvalidCallback`) before any registry
mutation (the error is raised before any state is touched). -/
theorem plain_target_noncallable_rejected (st : SRState) (t : Target) (onDel : OnDelete)
    (h1 : t.selfId = none) (h2 : pyTruthy onDel = true) (h3 : pyCallable onDel = false) :
    safe_ref st t onDel = .error .onDeleteNotCallable := by
  simp [safe_ref, h1, h2, h3]

/-- C2 witness: the amended theorem at a concrete plain target and the
concrete non-callable callback. -/
theorem plain_target_noncallable_rejected_witness :
    safe_ref st0 ⟨5, none, none, "o", ""⟩ badCb = .error .onDeleteNotCallable :=
  plain_target_noncallable_rejected st0 ⟨5, none, none, "o", ""⟩ badCb rfl rfl rfl

/-- C3 counterexample: the first trigger of the collection handler
succeeds, but a second trigger for the same wrapper is not a no-op: the
unguarded `del _all_instances[self.key]` raises `KeyError`. -/
theorem second_trigger_raises_keyerror :
    (removeHandler stLiveCb 0).1 = none
    ∧ (removeHandler (removeHandler stLiveCb 0).2 0).1 = some PyErr.keyError :=
  ⟨rfl, rfl⟩

/-- C3 as amended: when either weak half dies, the handler first removes
the registry entry, then invokes every accumulated callback exactly once,
in accumulation order, passing the wrapper itself; but a second trigger
for the same wrapper raises `KeyError` (rather than being a silent
no-op), aborting before any callback is re-invoked and mutating
nothing. -/
theorem remove_handler_fires_once_then_keyerror (st : SRState) (wid v : Nat) (w : Wrapper)
    (cbs : List OnDelete)
    (h1 : findWrapper st wid = some w)
    (h2 : regLookup st.registry w.key = some v)
    (h3 : w.deletionMethods = some cbs)
    (h4 : ∀ c ∈ cbs, pyCallable c = true) :
    (removeHandler st wid).1 = none
    ∧ regLookup (removeHandler st wid).2.registry w.key = none
    ∧ (removeHandler st wid).2.callbackLog
        = st.callbackLog ++ cbs.map (fun c => (cbCid c, wid))
    ∧ removeHandler (removeHandler st wid).2 wid
        = (some PyErr.keyError, (removeHandler st wid).2) := by
  have hrun := runCallbacks_ok wid cbs h4 { st with registry := regErase st.registry w.key }
  have hmain : removeHandler st wid
      = (none, updateWrapper
          { st with registry := regErase st.registry w.key,
                    callbackLog := st.callbackLog ++ cbs.map (fun c => (cbCid c, wid)) }
          wid (fun w2 => { w2 with deletionMethods := none })) := by
    simp only [removeHandler, h1, h2, h3, hrun]
  set st2 := updateWrapper
      { st with registry := regErase st.registry w.key,
                callbackLog := st.callbackLog ++ cbs.map (fun c => (cbCid c, wid)) }
      wid (fun w2 => { w2 with deletionMethods := none }) with hst2
  have hfw : findWrapper st2 wid = some { w with deletionMethods := none } := by
    rw [hst2, findWrapper_updateWrapper _ wid
      (fun w2 => { w2 with deletionMethods := none }) (fun w2 => rfl)]
    rw [show findWrapper
        { st with registry := regErase st.registry w.key,
                  callbackLog := st.callbackLog ++ cbs.map (fun c => (cbCid c, wid)) }
        wid = some w from h1]
    rfl
  have hkey : regLookup st2.registry ({ w with deletionMethods := none } : Wrapper).key
      = none := regLookup_regErase st.registry w.key
  have hsecond : removeHandler st2 wid = (some PyErr.keyError, st2) := by
    simp only [removeHandler, hfw, hkey]
  refine ⟨by rw [hmain], ?_, by rw [hmain]; rfl, by rw [hmain]; exact hsecond⟩
  rw [hmain]
  exact regLookup_regErase st.registry w.key

/-- C3 witness: the amended theorem on the concrete live wrapper that
accumulated callback `cbA`. -/
theorem remove_handler_fires_once_then_keyerror_witness :
    (removeHandler stLiveCb 0).1 = none
    ∧ regLookup (removeHandler stLiveCb 0).2.registry (get_instance_key 1 2) = none
    ∧ (removeHandler stLiveCb 0).2.callbackLog = [(1, 0)]
    ∧ removeHandler (removeHandler stLiveCb 0).2 0
        = (some PyErr.keyError, (removeHandler stLiveCb 0).2) :=
  remove_handler_fires_once_then_keyerror stLiveCb 0 0 wLiveCb [cbA]
    (by rfl) (by rfl) (by rfl) (by decide)

/-- C4: the claim states the wrapper resolves to absence whenever either
weak half is gone, in particular when the instance is dead but the
function still resolves.  The code disagrees: `__call__` only checks the
function half, and `function.__get__(None)` yields the bare function, so
after instance 1 is collected (function 2 still alive) the wrapper
resolves to the bare function, not to `None`. -/
theorem dead_instance_live_function_returns_bare :
    wrapperCall (killObject stLive 1) 0 = CallResult.bare 2
    ∧ wrapperCall (killObject stLive 1) 0 ≠ CallResult.absent :=
  ⟨rfl, by decide⟩

/-- C5: two constructions for the same (instance, function) pair, the
second made while the first wrapper is live and registered, return the
identical wrapper object: the interning lookup in `__new__` hands back
the registered wrapper, in any starting state. -/
theorem interning_returns_same_wrapper (st : SRState) (i f : Nat) (sn fn : String)
    (cb1 cb2 : OnDelete) :
    (bmwConstruct (bmwConstruct st i f sn fn cb1).2 i f sn fn cb2).1
      = (bmwConstruct st i f sn fn cb1).1 := by
  cases h : regLookup st.registry (get_instance_key i f) with
  | some wid =>
    simp [bmwConstruct, bmwNew, bmwInit, updateWrapper, h]
  | none =>
    simp [bmwConstruct, bmwNew, bmwInit, updateWrapper, h, regLookup_regInsert]

/-- C6: a target exposing `__self__` but no `__func__` makes `safe_ref`
raise `TypeError` (the spec's `MalformedTarget`) synchronously, before
any wrapper is created or any registry mutation happens (the error is
raised before any state is touched). -/
theorem malformed_target_rejected (st : SRState) (t : Target) (onDel : OnDelete) (i : Nat)
    (h1 : t.selfId = some i) (h2 : t.funcId = none) :
    safe_ref st t onDel = .error .boundButNotMethod := by
  simp [safe_ref, h1, h2]

/-- C6 witness: the theorem at a concrete malformed target. -/
theorem malformed_target_rejected_witness :
    safe_ref st0 ⟨7, some 1, none, "x", "m"⟩ none = .error .boundButNotMethod :=
  malformed_target_rejected st0 ⟨7, some 1, none, "x", "m"⟩ none 1 rfl rfl

/-- C7: while both weak halves resolve, calling the wrapper returns the
bound method reconstructed by rebinding the resolved function to the
resolved instance — the same (instance, function) pairing the wrapper was
built from, hence behaviourally the original bound method.  `wrapperCall`
consumes no state (it returns only the call result), so the call is
side-effect-free and can be repeated indefinitely without invalidating
the reference. -/
theorem live_wrapper_call_rebinds (st : SRState) (wid : Nat) (w : Wrapper)
    (h1 : findWrapper st wid = some w)
    (h2 : isLive st w.weakSelfRef = true)
    (h3 : isLive st w.weakFuncRef = true) :
    wrapperCall st wid = CallResult.bound w.weakSelfRef w.weakFuncRef := by
  simp [wrapperCall, h1, h2, h3]

/-- C7 witness: the theorem on the concrete live wrapper for instance 1
and function 2. -/
theorem live_wrapper_call_rebinds_witness :
    wrapperCall stLive 0 = CallResult.bound 1 2 :=
  live_wrapper_call_rebinds stLive 0 wLive (by rfl) (by rfl) (by rfl)

/-- C8 counterexample: `key_of` does not separate all distinct pairings.
CPython int hashing reduces modulo 2^61 - 1, so the distinct identity
pairs (5 + 2^61 - 1, 7) and (5, 7) derive the same key and would collide
into the same registry slot. -/
theorem key_collision_distinct_pairings :
    get_instance_key (5 + pyHashModulus) 7 = get_instance_key 5 7
    ∧ 5 + pyHashModulus ≠ 5 :=
  ⟨rfl, by decide⟩

/-- C8 as amended: the key derivation is a pure, deterministic function
of the two identities — more precisely of their residues modulo
2^61 - 1 — so repeated computation for the same pair yields the same key;
but distinct pairings whose identities agree modulo 2^61 - 1 collide. -/
theorem get_instance_key_depends_on_residues (i f : Nat) :
    get_instance_key i f = get_instance_key (i % pyHashModulus) (f % pyHashModulus) := by
  unfold get_instance_key pyIntHash
  rw [Nat.mod_mod_of_dvd i dvd_rfl, Nat.mod_mod_of_dvd f dvd_rfl]

/-- C9: the claim states wrapper equality is key equality, reading
`__cmp__`.  Under Python 3 that method is inert: the comparison protocol
never consults `__cmp__`, so `==` falls back to object identity, and the
method body calls the removed builtin `cmp`, so even a direct invocation
raises `NameError`.  Concretely, after the wrapper for (1, 2) dies and a
fresh pairing is allocated at the reused identities, two distinct
wrappers with equal keys coexist and compare unequal. -/
theorem equal_keys_but_python3_unequal :
    findWrapper stReuse 0 = some wOld
    ∧ findWrapper stReuse 1 = some wNew
    ∧ wOld.key = wNew.key
    ∧ wrapperPyEq wOld wNew = false
    ∧ wrapperCmp wOld wNew = (some PyErr.nameError, none) :=
  ⟨rfl, rfl, rfl, rfl, rfl⟩

/-- C10: for a plain (non-bound-method) target, a falsy `on_delete` is
treated as absent: the `if on_delete:` guard skips the callability check,
no error is raised, and the returned handle is a plain weak reference
wired with no collection callback, the state untouched. -/
theorem falsy_on_delete_ignored (st : SRState) (t : Target) (onDel : OnDelete)
    (h1 : t.selfId = none) (h2 : pyTruthy onDel = false) :
    safe_ref st t onDel = .ok (.weakref t.objId none, st) := by
  simp [safe_ref, h1, h2]

/-- C10 witness: the theorem at a concrete plain target with a falsy yet
callable `on_delete`. -/
theorem falsy_on_delete_ignored_witness :
    safe_ref st0 ⟨5, none, none, "o", ""⟩ falsyCallable = .ok (.weakref 5 none, st0) :=
  falsy_on_delete_ignored st0 ⟨5, none, none, "o", ""⟩ falsyCallable rfl rfl

end SafeRef
